import Mathlib

/-!
Shallow embedding of `src/tools/vector_search.py`.

Modelling conventions:
* Numpy `float32` vectors are idealized as exact rationals (`List ℚ`);
  float rounding is not modelled, so "equal within floating-point
  tolerance" becomes exact equality.
* A stored `"embedding"` value that is missing or not an `np.ndarray`
  (the `isinstance` check in `encyclopedia_search`) is modelled as
  `none`; an ndarray of any length is `some v`.
* `np.dot` on two 1-D arrays of different lengths raises `ValueError`
  ("shapes not aligned ..."); the model uses the fixed exception text
  "shapes not aligned" for it.
* The remote call `_get_embedding` is a network effect; operations that
  use it take an `embed : String → Except String (List ℚ)` parameter, a
  raised exception being the `.error` case.
* The thread pool in `initialize_vector_db_from_markdown` appends
  results in completion order; the completion order is modelled by a
  reordering parameter `sched`, assumed in theorems to permute its input.
* `ToolResult` is not under `src/` (only its callers are).  Modelled
  from the spec: section 4.5 describes the envelope with `ok(data)`,
  `err(message)` and an `ok_empty(message)` variant that signals a
  successful call producing no results; `err` is the only failure form.
-/

/-- Modelled from the spec: the Tool Result Envelope of section 4.5,
whose `ToolResult` class (`tools/return_type.py`) is not under `src/`.
`ok` wraps a successful payload, `err` a failure message, and `ok_empty`
signals a successful call that produced no results. -/
inductive ToolResult (α : Type) where
  | ok (data : α)
  | ok_empty (message : String)
  | err (error : String)
deriving DecidableEq

/-- The envelope's success flag: `ok` and `ok_empty` are successes,
`err` is the failure form (spec section 3, Tool Result Envelope). -/
def ToolResult.success {α : Type} : ToolResult α → Bool
  | .err _ => false
  | _ => true

/-- The configured Titan V2 dimension: `EMBEDDING_DIMENSION = 1024`. -/
def EMBEDDING_DIMENSION : Nat := 1024

/-- Squared Euclidean norm of a vector: `np.linalg.norm(v) ** 2` exactly.
`np.linalg.norm` itself is its square root, see `normR`. -/
def normSq (v : List ℚ) : ℚ := (v.map fun x => x * x).sum

/-- Euclidean norm `np.linalg.norm(v)`, interpreted in ℝ. -/
noncomputable def normR (v : List ℚ) : ℝ := Real.sqrt ((normSq v : ℚ) : ℝ)

/-- Dot product `np.dot(v1, v2)` for two 1-D arrays of the same length (the only way
the code reaches it without raising). -/
def dotProd : List ℚ → List ℚ → ℚ
  | [], _ => 0
  | _, [] => 0
  | a :: as, b :: bs => a * b + dotProd as bs

/-- The exact value of a similarity score `d / (n1 * n2)` where `n1, n2`
are Euclidean norms: represented as `num / Real.sqrt denSq` with
`denSq = normSq v1 * normSq v2 > 0`.  The literal `0.0` returned by the
zero-norm guard is represented as `⟨0, 1⟩`. -/
structure SimScore where
  num : ℚ
  denSq : ℚ
  denSq_pos : 0 < denSq

instance : DecidableEq SimScore := fun s t =>
  decidable_of_iff (s.num = t.num ∧ s.denSq = t.denSq)
    (by
      cases s; cases t
      constructor
      · rintro ⟨h1, h2⟩
        subst h1; subst h2; rfl
      · intro h
        cases h; exact ⟨rfl, rfl⟩)

instance {ε α : Type} [DecidableEq ε] [DecidableEq α] : DecidableEq (Except ε α) :=
  fun a b =>
    match a, b with
    | .ok x, .ok y =>
      decidable_of_iff (x = y) (by constructor
                                   · intro h; subst h; rfl
                                   · intro h; cases h; rfl)
    | .error x, .error y =>
      decidable_of_iff (x = y) (by constructor
                                   · intro h; subst h; rfl
                                   · intro h; cases h; rfl)
    | .ok _, .error _ => isFalse (by intro h; cases h)
    | .error _, .ok _ => isFalse (by intro h; cases h)

/-- The real number a `SimScore` stands for. -/
noncomputable def SimScore.toReal (s : SimScore) : ℝ :=
  ((s.num : ℚ) : ℝ) / Real.sqrt ((s.denSq : ℚ) : ℝ)

/-- Exact comparison of two represented reals `s.num / √s.denSq ≤
t.num / √t.denSq` (the float `≤` used by Python when sorting scores),
computed by sign analysis and cross-multiplied squares. -/
def SimScore.le (s t : SimScore) : Bool :=
  if s.num < 0 then
    if t.num < 0 then decide (t.num ^ 2 * s.denSq ≤ s.num ^ 2 * t.denSq)
    else true
  else
    if t.num < 0 then false
    else decide (s.num ^ 2 * t.denSq ≤ t.num ^ 2 * s.denSq)

/-- Equality of the represented reals (float `==` on scores). -/
def SimScore.eqv (s t : SimScore) : Bool :=
  SimScore.le s t && SimScore.le t s

/-- The function `_cosine_similarity(vec1, vec2)`: computes both norms first and
returns the literal `0.0` when either is zero; only then evaluates
`np.dot`, which raises when the 1-D shapes differ. -/
def _cosine_similarity (v1 v2 : List ℚ) : Except String SimScore :=
  if h : normSq v1 = 0 ∨ normSq v2 = 0 then
    .ok ⟨0, 1, one_pos⟩
  else if v1.length = v2.length then
    .ok ⟨dotProd v1 v2, normSq v1 * normSq v2, by
      push_neg at h
      have n1 : 0 ≤ normSq v1 := by
        unfold normSq
        exact List.sum_nonneg (fun x hx => by
          obtain ⟨y, _, rfl⟩ := List.mem_map.1 hx
          exact mul_self_nonneg y)
      have n2 : 0 ≤ normSq v2 := by
        unfold normSq
        exact List.sum_nonneg (fun x hx => by
          obtain ⟨y, _, rfl⟩ := List.mem_map.1 hx
          exact mul_self_nonneg y)
      exact mul_pos (lt_of_le_of_ne n1 (Ne.symm h.1)) (lt_of_le_of_ne n2 (Ne.symm h.2))⟩
  else
    .error "shapes not aligned"

/-- One record of `_VECTOR_DATABASE_STORE`: a dict with `"text"`,
`"chunk_id"` and `"embedding"`; the embedding is `none` when the stored
value is missing or not an `np.ndarray`. -/
structure Entry where
  text : String
  chunk_id : Int
  embedding : Option (List ℚ)
deriving DecidableEq

/-- One element of `results_with_scores` / the returned ranked list. -/
structure SearchResult where
  text : String
  chunk_id : Int
  score : SimScore
deriving DecidableEq

/-- The payload `encyclopedia_search` passes to `ToolResult.ok`: the
empty-database branch passes a plain string, the ranked branch a list. -/
inductive VSData where
  | message (s : String)
  | results (rs : List SearchResult)
deriving DecidableEq

/-- Descending-score order on search results: `scoreGE a b` holds when
`a`'s score is at least `b`'s, i.e. `a` may precede `b` in the output of
`sorted(..., key=lambda x: x["score"], reverse=True)`. -/
def scoreGE (a b : SearchResult) : Prop := SimScore.le b.score a.score = true

instance : DecidableRel scoreGE := fun a b =>
  inferInstanceAs (Decidable (SimScore.le b.score a.score = true))

/-- The scoring loop of `encyclopedia_search`: entries whose embedding
is not an ndarray are skipped (with a logged warning); an exception from
`_cosine_similarity` propagates out of the loop. -/
def scoreEntries (q : List ℚ) : List Entry → Except String (List SearchResult)
  | [] => .ok []
  | e :: rest =>
    match e.embedding with
    | none => scoreEntries q rest
    | some emb =>
      match _cosine_similarity q emb with
      | .error msg => .error msg
      | .ok s =>
        match scoreEntries q rest with
        | .error msg => .error msg
        | .ok tail => .ok (⟨e.text, e.chunk_id, s⟩ :: tail)

/-- Python list slicing `l[:k]` for an `int` bound `k`: a non-negative
`k` keeps the first `k` elements; a negative `k` drops the last `-k`. -/
def pySlice {α : Type} (k : Int) (l : List α) : List α :=
  if 0 ≤ k then l.take k.toNat
  else l.take (l.length - (-k).toNat)

/-- The tool `encyclopedia_search(message=..., top_k=...)`: guards in source
order (empty message, `top_k > 25`, empty store), then the query
embedding, the scoring loop, the stable descending sort, the `[:top_k]`
slice, and the empty-result signal.  Exceptions raised inside the `try`
block are wrapped as `"An error occurred during vector search: ..."`. -/
def encyclopedia_search (embed : String → Except String (List ℚ))
    (db : List Entry) (message : String) (top_k : Int) : ToolResult VSData :=
  if message = "" then .err "Input message must be a non-empty string."
  else if 25 < top_k then
    .err "No more than 25 results may be returned for a single query."
  else if db = [] then .ok (.message "Vector database is empty. Initialize it first.")
  else
    match embed message with
    | .error e => .err ("An error occurred during vector search: " ++ e)
    | .ok q =>
      match scoreEntries q db with
      | .error e => .err ("An error occurred during vector search: " ++ e)
      | .ok scored =>
        let top := pySlice top_k (List.insertionSort scoreGE scored)
        if top = [] then
          .ok_empty ("No relevant information found for: \x27" ++ message ++ "\x27")
        else .ok (.results top)

/-- Python `str.split(sep)` for a one-character separator, on the
character list: `"".split(c)` is `[""]`, and separators delimit possibly
empty fields. -/
def splitChar (sep : Char) : List Char → List (List Char)
  | [] => [[]]
  | c :: rest =>
    match splitChar sep rest with
    | [] => if c = sep then [[], []] else [[c]]
    | h :: t => if c = sep then [] :: h :: t else (c :: h) :: t

/-- The whitespace characters Python `str.strip()` removes (ASCII part;
the exotic unicode spaces are immaterial here). -/
def isPyWhitespace (c : Char) : Bool :=
  c == ' ' || c == '\t' || c == '\n' || c == '\r' || c == '\x0b' || c == '\x0c'

/-- Python `str.strip()`: drop leading and trailing whitespace. -/
def stripChars (cs : List Char) : List Char :=
  ((cs.dropWhile isPyWhitespace).reverse.dropWhile isPyWhitespace).reverse

/-- The chunking expression `[chunk.strip() for chunk in content.split(chr(10)) if chunk.strip()]`:
split on line boundaries, strip each piece, keep the non-empty ones. -/
def chunkDocument (content : String) : List String :=
  (((splitChar '\n' content.toList).map stripChars).map
      (fun cs => String.mk cs)).filter (fun c => c != "")

/-- The status dict returned by `initialize_vector_db_from_markdown`. -/
inductive InitResult where
  | success (chunks_added : Nat) (total_chunks_in_db : Nat)
  | error (message : String)
deriving DecidableEq

/-- The builder `initialize_vector_db_from_markdown(markdown_filepath, ...)`.
`readFile` models `open(...).read()` (`none` = `FileNotFoundError`);
`sched` models `as_completed` (the completion order of the submitted
`(chunk_id, chunk)` pairs); a per-chunk embedding failure is caught and
the chunk dropped.  The function clears the store first and returns the
status dict together with the final store contents. -/
def initialize_vector_db_from_markdown (readFile : String → Option String)
    (embed : String → Except String (List ℚ))
    (sched : List (Nat × String) → List (Nat × String))
    (markdown_filepath : String) : InitResult × List Entry :=
  match readFile markdown_filepath with
  | none => (.error ("File not found: " ++ markdown_filepath), [])
  | some content =>
    let chunks := chunkDocument content
    if chunks = [] then (.error "No content chunks found in the file.", [])
    else
      let store := (sched chunks.enum).filterMap (fun p =>
        match embed p.2 with
        | .ok v => some (Entry.mk p.2 (p.1 : Int) (some v))
        | .error _ => none)
      (.success store.length store.length, store)

/-- One record of the snapshot file `embeddings.json`: the JSON object
`{"text": ..., "chunk_id": ..., "embedding": [...]}`. -/
structure SerializedEntry where
  text : String
  chunk_id : Int
  embedding : List ℚ
deriving DecidableEq

/-- One snapshot record `entry["embedding"].tolist()` packaged with text and id; `none` when
the stored embedding is not an array (`.tolist()` would raise). -/
def serializeEntry (e : Entry) : Option SerializedEntry :=
  e.embedding.map fun v => SerializedEntry.mk e.text e.chunk_id v

/-- The `data` list built by the loop in `_save_embeddings`; the first
entry whose stored embedding has no `.tolist()` raises, aborting the
whole save. -/
def serializeStore : List Entry → Option (List SerializedEntry)
  | [] => some []
  | e :: rest =>
    match serializeEntry e, serializeStore rest with
    | some se, some st => some (se :: st)
    | _, _ => none

/-- A flat model of the file system state the save/load pair touches:
the set of existing directories and the parsed content of each file. -/
structure FS where
  dirs : List String
  files : List (String × List SerializedEntry)
deriving DecidableEq

/-- The fixed snapshot path `VECTOR_DB_CACHE_FILE = "objects/datasets/embeddings.json"`. -/
def VECTOR_DB_CACHE_FILE : String := "objects/datasets/embeddings.json"

/-- The directory containing a path: everything before the last `/`. -/
def parentDir (path : String) : String :=
  String.mk (((path.toList.reverse.dropWhile (fun c => c != '/')).drop 1).reverse)

/-- Write a file, overwriting any existing entry at that path. -/
def setFile (files : List (String × List SerializedEntry)) (path : String)
    (content : List SerializedEntry) : List (String × List SerializedEntry) :=
  (path, content) :: files.filter (fun pr => pr.1 != path)

/-- Read a file if it exists. -/
def getFile (files : List (String × List SerializedEntry)) (path : String) :
    Option (List SerializedEntry) :=
  (files.find? (fun pr => pr.1 == path)).map Prod.snd

/-- The call `os.makedirs("vector_cache", exist_ok=True)`: ensures the fixed
directory `"vector_cache"` exists — a directory unrelated to the parent
of `VECTOR_DB_CACHE_FILE`. -/
def mkdirsVC (dirs : List String) : List String :=
  if "vector_cache" ∈ dirs then dirs else "vector_cache" :: dirs

/-- The function `_save_embeddings()`: runs `os.makedirs("vector_cache", exist_ok=True)`
(creating that fixed directory, not the parent of `VECTOR_DB_CACHE_FILE`),
serializes the store, then `open(VECTOR_DB_CACHE_FILE, "w")` — which
raises (`none`) when the snapshot path's parent directory is absent. -/
def _save_embeddings (fs : FS) (store : List Entry) : Option FS :=
  match serializeStore store with
  | none => none
  | some data =>
    if parentDir VECTOR_DB_CACHE_FILE ∈ mkdirsVC fs.dirs then
      some (FS.mk (mkdirsVC fs.dirs) (setFile fs.files VECTOR_DB_CACHE_FILE data))
    else none

/-- The function `_load_embeddings()`: returns `False` leaving the store untouched
when the cache file does not exist; otherwise replaces the store
wholesale with the deserialized records (vectors as `float32` arrays). -/
def _load_embeddings (fs : FS) (store : List Entry) : Bool × List Entry :=
  match getFile fs.files VECTOR_DB_CACHE_FILE with
  | none => (false, store)
  | some data => (true, data.map fun s => Entry.mk s.text s.chunk_id (some s.embedding))

/-! ## Concrete fixtures used by witnesses and counterexamples -/

/-- A provider returning the two-dimensional query embedding `[1, 0]`. -/
def embedW : String → Except String (List ℚ) := fun _ => .ok [1, 0]

/-- A five-record cache of two-dimensional embeddings. -/
def db5 : List Entry :=
  [Entry.mk "t0" 0 (some [1, 0]), Entry.mk "t1" 1 (some [0, 1]),
   Entry.mk "t2" 2 (some [1, 1]), Entry.mk "t3" 3 (some [2, 0]),
   Entry.mk "t4" 4 (some [0, 3])]

/-- The scored records of `db5` against the query `[1, 0]`, cache order. -/
def scored5 : List SearchResult :=
  [SearchResult.mk "t0" 0 ⟨1, 1, one_pos⟩,
   SearchResult.mk "t1" 1 ⟨0, 1, one_pos⟩,
   SearchResult.mk "t2" 2 ⟨1, 2, by norm_num⟩,
   SearchResult.mk "t3" 3 ⟨2, 4, by norm_num⟩,
   SearchResult.mk "t4" 4 ⟨0, 9, by norm_num⟩]

/-- The top three of `scored5` sorted by descending score, stably. -/
def res3 : List SearchResult :=
  [SearchResult.mk "t0" 0 ⟨1, 1, one_pos⟩,
   SearchResult.mk "t3" 3 ⟨2, 4, by norm_num⟩,
   SearchResult.mk "t2" 2 ⟨1, 2, by norm_num⟩]

/-- A provider returning a full 1024-dimensional embedding of ones. -/
def embedBig : String → Except String (List ℚ) :=
  fun _ => .ok (List.replicate EMBEDDING_DIMENSION 1)

/-- A cache holding one well-formed record and one record whose stored
vector has length 1 instead of the configured 1024. -/
def dbBad : List Entry :=
  [Entry.mk "good" 0 (some (List.replicate EMBEDDING_DIMENSION 1)),
   Entry.mk "bad" 1 (some [1])]

/-- A file system where every path reads the five-line Mars document. -/
def readFileMars : String → Option String := fun _ => some "Mars\n\nVenus\n\nPluto"

/-- A file system where no path can be opened. -/
def readFileAbsent : String → Option String := fun _ => none

/-- A provider returning the one-dimensional embedding `[1]`. -/
def embedOne : String → Except String (List ℚ) := fun _ => .ok [1]

/-- A file-system state where the snapshot's parent directory exists. -/
def fsDatasets : FS := FS.mk ["objects/datasets"] []

/-- A one-record store to save and reload. -/
def storeHello : List Entry := [Entry.mk "hello" 0 (some [1, 2])]

/-- The serialized form of `storeHello`. -/
def dataHello : List SerializedEntry := [SerializedEntry.mk "hello" 0 [1, 2]]

/-- The file-system state after saving `storeHello` from `fsDatasets`. -/
def fsSaved : FS :=
  FS.mk ["vector_cache", "objects/datasets"] [(VECTOR_DB_CACHE_FILE, dataHello)]

/-- A file-system state with no directories and no files. -/
def fsBare : FS := FS.mk [] []

/-- A one-record store for the failing save. -/
def storeA : List Entry := [Entry.mk "a" 0 (some [1])]

/-! ## Helper lemmas: the real number each `SimScore` stands for -/

theorem normSq_nonneg (v : List ℚ) : 0 ≤ normSq v := by
  unfold normSq
  exact List.sum_nonneg (fun x hx => by
    obtain ⟨y, _, rfl⟩ := List.mem_map.1 hx
    exact mul_self_nonneg y)

theorem normSq_pos_of_ne (v : List ℚ) (h : normSq v ≠ 0) : 0 < normSq v :=
  lt_of_le_of_ne (normSq_nonneg v) (Ne.symm h)

theorem normR_eq_zero_iff (v : List ℚ) : normR v = 0 ↔ normSq v = 0 := by
  unfold normR
  rw [Real.sqrt_eq_zero']
  constructor
  · intro h
    have h2 : (0 : ℝ) ≤ (normSq v : ℝ) := by exact_mod_cast normSq_nonneg v
    exact_mod_cast le_antisymm h h2
  · intro h
    rw [h]
    simp

theorem sqrt_cross_le_iff (x y u v : ℝ) (hx : 0 ≤ x) (hy : 0 ≤ y)
    (hu : 0 < u) (hv : 0 < v) :
    x * Real.sqrt u ≤ y * Real.sqrt v ↔ x ^ 2 * u ≤ y ^ 2 * v := by
  rw [← pow_le_pow_iff_left₀ (mul_nonneg hx (Real.sqrt_nonneg u))
      (mul_nonneg hy (Real.sqrt_nonneg v)) (two_ne_zero)]
  rw [mul_pow, mul_pow, Real.sq_sqrt hu.le, Real.sq_sqrt hv.le]

theorem SimScore.le_iff (s t : SimScore) :
    SimScore.le s t = true ↔ s.toReal ≤ t.toReal := by
  obtain ⟨a, p, hp⟩ := s
  obtain ⟨b, q, hq⟩ := t
  have hpR : (0 : ℝ) < (p : ℝ) := by exact_mod_cast hp
  have hqR : (0 : ℝ) < (q : ℝ) := by exact_mod_cast hq
  have hsp : 0 < Real.sqrt (p : ℝ) := Real.sqrt_pos.2 hpR
  have hsq : 0 < Real.sqrt (q : ℝ) := Real.sqrt_pos.2 hqR
  have htr : SimScore.toReal ⟨a, p, hp⟩ ≤ SimScore.toReal ⟨b, q, hq⟩ ↔
      (a : ℝ) * Real.sqrt (q : ℝ) ≤ (b : ℝ) * Real.sqrt (p : ℝ) := by
    unfold SimScore.toReal
    exact div_le_div_iff₀ hsp hsq
  rw [htr]
  unfold SimScore.le
  dsimp only
  by_cases ha : a < 0
  · rw [if_pos ha]
    by_cases hb : b < 0
    · rw [if_pos hb]
      have haR : (a : ℝ) < 0 := by exact_mod_cast ha
      have hbR : (b : ℝ) < 0 := by exact_mod_cast hb
      rw [decide_eq_true_iff]
      have hflip : (a : ℝ) * Real.sqrt (q : ℝ) ≤ (b : ℝ) * Real.sqrt (p : ℝ) ↔
          (-(b : ℝ)) * Real.sqrt (p : ℝ) ≤ (-(a : ℝ)) * Real.sqrt (q : ℝ) := by
        rw [neg_mul, neg_mul, neg_le_neg_iff]
      rw [hflip, sqrt_cross_le_iff _ _ _ _ (by linarith) (by linarith) hpR hqR,
        neg_sq, neg_sq]
      constructor
      · intro h
        exact_mod_cast h
      · intro h
        exact_mod_cast h
    · rw [if_neg hb]
      have haR : (a : ℝ) < 0 := by exact_mod_cast ha
      have hbR : (0 : ℝ) ≤ (b : ℝ) := by exact_mod_cast not_lt.1 hb
      have h1 : (a : ℝ) * Real.sqrt (q : ℝ) ≤ 0 := mul_nonpos_of_nonpos_of_nonneg haR.le hsq.le
      have h2 : (0 : ℝ) ≤ (b : ℝ) * Real.sqrt (p : ℝ) := mul_nonneg hbR hsp.le
      exact ⟨fun _ => le_trans h1 h2, fun _ => rfl⟩
  · rw [if_neg ha]
    by_cases hb : b < 0
    · rw [if_pos hb]
      have haR : (0 : ℝ) ≤ (a : ℝ) := by exact_mod_cast not_lt.1 ha
      have hbR : (b : ℝ) < 0 := by exact_mod_cast hb
      have h1 : (b : ℝ) * Real.sqrt (p : ℝ) < 0 := mul_neg_of_neg_of_pos hbR hsp
      have h2 : (0 : ℝ) ≤ (a : ℝ) * Real.sqrt (q : ℝ) := mul_nonneg haR hsq.le
      constructor
      · intro h
        exact absurd h (by simp)
      · intro h
        exact absurd h (by push_neg; linarith)
    · rw [if_neg hb]
      have haR : (0 : ℝ) ≤ (a : ℝ) := by exact_mod_cast not_lt.1 ha
      have hbR : (0 : ℝ) ≤ (b : ℝ) := by exact_mod_cast not_lt.1 hb
      rw [decide_eq_true_iff]
      rw [sqrt_cross_le_iff _ _ _ _ haR hbR hqR hpR]
      constructor
      · intro h
        exact_mod_cast h
      · intro h
        exact_mod_cast h

theorem SimScore.le_total_bool (s t : SimScore) :
    SimScore.le s t = true ∨ SimScore.le t s = true := by
  rw [SimScore.le_iff, SimScore.le_iff]
  exact le_total _ _

theorem SimScore.le_trans_bool {s t u : SimScore} (h1 : SimScore.le s t = true)
    (h2 : SimScore.le t u = true) : SimScore.le s u = true := by
  rw [SimScore.le_iff] at h1 h2 ⊢
  exact le_trans h1 h2

theorem SimScore.le_refl_bool (s : SimScore) : SimScore.le s s = true := by
  rw [SimScore.le_iff]

theorem SimScore.eqv_iff (s t : SimScore) :
    SimScore.eqv s t = true ↔ s.toReal = t.toReal := by
  unfold SimScore.eqv
  rw [Bool.and_eq_true, SimScore.le_iff, SimScore.le_iff]
  constructor
  · rintro ⟨h1, h2⟩
    exact le_antisymm h1 h2
  · intro h
    exact ⟨h.le, h.ge⟩

/-! ## Helper lemmas: stability of the model of `sorted(..., reverse=True)` -/

theorem filter_orderedInsert_pos (p : SearchResult → Bool) (x : SearchResult)
    (hx : p x = true) (l : List SearchResult)
    (hall : ∀ y ∈ l, p y = true → scoreGE x y) :
    (List.orderedInsert scoreGE x l).filter p = x :: l.filter p := by
  induction l with
  | nil => simp [List.orderedInsert, hx]
  | cons y t ih =>
    by_cases hr : scoreGE x y
    · rw [List.orderedInsert, if_pos hr]
      simp [List.filter_cons, hx]
    · rw [List.orderedInsert, if_neg hr]
      have hy : p y = false := by
        cases hpy : p y with
        | false => rfl
        | true => exact absurd (hall y (List.mem_cons_self y t) hpy) hr
      rw [List.filter_cons, List.filter_cons]
      simp only [hy, Bool.false_eq_true, if_false]
      exact ih (fun z hz hp => hall z (List.mem_cons_of_mem y hz) hp)

theorem filter_orderedInsert_neg (p : SearchResult → Bool) (x : SearchResult)
    (hx : p x = false) (l : List SearchResult) :
    (List.orderedInsert scoreGE x l).filter p = l.filter p := by
  induction l with
  | nil => simp [List.orderedInsert, hx]
  | cons y t ih =>
    by_cases hr : scoreGE x y
    · rw [List.orderedInsert, if_pos hr]
      simp [List.filter_cons, hx]
    · rw [List.orderedInsert, if_neg hr]
      rw [List.filter_cons, List.filter_cons]
      cases hpy : p y <;> simp [hpy, ih]

theorem filter_insertionSort (p : SearchResult → Bool)
    (hp : ∀ a b, p a = true → p b = true → scoreGE a b) (l : List SearchResult) :
    (List.insertionSort scoreGE l).filter p = l.filter p := by
  induction l with
  | nil => rfl
  | cons x t ih =>
    rw [List.insertionSort]
    cases hx : p x with
    | true =>
      rw [filter_orderedInsert_pos p x hx _ (fun y _ hpy => hp x y hx hpy)]
      rw [List.filter_cons]
      simp [hx, ih]
    | false =>
      rw [filter_orderedInsert_neg p x hx]
      rw [List.filter_cons]
      simp [hx, ih]

theorem pair_sublist_insertionSort (a b : SearchResult) (l : List SearchResult)
    (h : [a, b].Sublist (List.insertionSort scoreGE l))
    (he : SimScore.eqv a.score b.score = true) : [a, b].Sublist l := by
  have hpa : SimScore.eqv a.score a.score = true := (SimScore.eqv_iff _ _).2 rfl
  have hpb : SimScore.eqv b.score a.score = true :=
    (SimScore.eqv_iff _ _).2 ((SimScore.eqv_iff _ _).1 he).symm
  have hp : ∀ x y, SimScore.eqv x.score a.score = true →
      SimScore.eqv y.score a.score = true → scoreGE x y := by
    intro x y hx hy
    rw [SimScore.eqv_iff] at hx hy
    unfold scoreGE
    rw [SimScore.le_iff, hx, hy]
  have h1 : [a, b].filter (fun x => SimScore.eqv x.score a.score) = [a, b] := by
    simp [List.filter, hpa, hpb]
  have h2 := h.filter (fun x => SimScore.eqv x.score a.score)
  rw [h1, filter_insertionSort _ hp l] at h2
  exact h2.trans (List.filter_sublist l)

/-! ## Helper lemmas: the scoring loop -/

theorem cosine_error_msg (v1 v2 : List ℚ) (msg : String)
    (h : _cosine_similarity v1 v2 = .error msg) : msg = "shapes not aligned" := by
  unfold _cosine_similarity at h
  split_ifs at h with h1 h2
  injection h with hh
  exact hh.symm

theorem scoreEntries_skip (q : List ℚ) (db : List Entry) :
    scoreEntries q db = scoreEntries q (db.filter fun e => e.embedding.isSome) := by
  induction db with
  | nil => rfl
  | cons e t ih =>
    rw [List.filter_cons]
    cases he : e.embedding with
    | none =>
      simp only [he, Option.isSome_none, Bool.false_eq_true, if_false]
      rw [scoreEntries, he]
      exact ih
    | some v =>
      simp only [he, Option.isSome_some, if_true]
      rw [scoreEntries, scoreEntries, he]
      rw [ih]

theorem scoreEntries_error_of_mismatch (q : List ℚ) (db : List Entry) (v : List ℚ)
    (hq : normSq q ≠ 0) (hv : normSq v ≠ 0) (hlen : v.length ≠ q.length)
    (hmem : ∃ e ∈ db, e.embedding = some v) :
    scoreEntries q db = .error "shapes not aligned" := by
  induction db with
  | nil =>
    obtain ⟨e, he, _⟩ := hmem
    cases he
  | cons e t ih =>
    obtain ⟨e', he'mem, he'⟩ := hmem
    rcases List.mem_cons.1 he'mem with rfl | hmem'
    · rw [scoreEntries, he']
      have hcos : _cosine_similarity q v = .error "shapes not aligned" := by
        unfold _cosine_similarity
        rw [dif_neg (by push_neg; exact ⟨hq, hv⟩)]
        rw [if_neg (fun hh => hlen hh.symm)]
      dsimp only
      rw [hcos]
    · have ht : scoreEntries q t = .error "shapes not aligned" := ih ⟨e', hmem', he'⟩
      rw [scoreEntries]
      cases he : e.embedding with
      | none => exact ht
      | some w =>
        dsimp only
        cases hc : _cosine_similarity q w with
        | error msg =>
          dsimp only
          rw [cosine_error_msg q w msg hc]
        | ok s =>
          dsimp only
          rw [ht]

/-! ## Helper lemmas: unfolding `encyclopedia_search` past its guards -/

theorem encyclopedia_search_unfold (embed : String → Except String (List ℚ))
    (db : List Entry) (message : String) (k : Int) (q : List ℚ)
    (scored : List SearchResult)
    (hm : message ≠ "") (hk : ¬ (25 < k)) (hdb : db ≠ [])
    (hq : embed message = .ok q) (hs : scoreEntries q db = .ok scored) :
    encyclopedia_search embed db message k =
      if pySlice k (List.insertionSort scoreGE scored) = [] then
        .ok_empty ("No relevant information found for: \x27" ++ message ++ "\x27")
      else .ok (.results (pySlice k (List.insertionSort scoreGE scored))) := by
  unfold encyclopedia_search
  rw [if_neg hm, if_neg hk, if_neg hdb, hq]
  dsimp only
  rw [hs]

theorem encyclopedia_search_unfold_error (embed : String → Except String (List ℚ))
    (db : List Entry) (message : String) (k : Int) (q : List ℚ) (msg : String)
    (hm : message ≠ "") (hk : ¬ (25 < k)) (hdb : db ≠ [])
    (hq : embed message = .ok q) (hs : scoreEntries q db = .error msg) :
    encyclopedia_search embed db message k =
      .err ("An error occurred during vector search: " ++ msg) := by
  unfold encyclopedia_search
  rw [if_neg hm, if_neg hk, if_neg hdb, hq]
  dsimp only
  rw [hs]

/-! ## Helper lemmas: persistence -/

theorem normSq_replicate_one (n : Nat) : normSq (List.replicate n (1 : ℚ)) = n := by
  induction n with
  | zero => simp [normSq]
  | succ m ih =>
    rw [List.replicate_succ]
    unfold normSq at ih ⊢
    rw [List.map_cons, List.sum_cons, ih]
    push_cast
    ring

theorem serializeStore_inv (store : List Entry) (data : List SerializedEntry)
    (h : serializeStore store = some data) :
    data.map (fun s => Entry.mk s.text s.chunk_id (some s.embedding)) = store := by
  induction store generalizing data with
  | nil =>
    unfold serializeStore at h
    injection h with h
    rw [← h]
    rfl
  | cons e t ih =>
    obtain ⟨et, ei, eemb⟩ := e
    unfold serializeStore at h
    cases eemb with
    | none => simp [serializeEntry] at h
    | some v =>
      rw [show serializeEntry (Entry.mk et ei (some v)) =
          some (SerializedEntry.mk et ei v) from rfl] at h
      cases hst : serializeStore t with
      | none => rw [hst] at h; simp at h
      | some td =>
        rw [hst] at h
        dsimp only at h
        injection h with h
        rw [← h, List.map_cons, ih td hst]

theorem getFile_setFile (files : List (String × List SerializedEntry))
    (p : String) (c : List SerializedEntry) :
    getFile (setFile files p c) p = some c := by
  unfold getFile setFile
  rw [List.find?_cons_of_pos _ (by simp)]
  rfl

/-! ## The claims -/

/-- C5: for every pair of vectors where at least one has zero magnitude,
`_cosine_similarity` returns exactly `0.0` and never divides; for every
pair where both magnitudes are nonzero (and the lengths agree, so the
dot product is defined), it returns the dot product divided by the
product of the two magnitudes, whose denominator is nonzero. -/
theorem C5_cosine_zero_guard_and_value (v1 v2 : List ℚ) :
    (normR v1 = 0 ∨ normR v2 = 0 →
      ∃ s, _cosine_similarity v1 v2 = .ok s ∧ s.toReal = 0)
    ∧ (normR v1 ≠ 0 → normR v2 ≠ 0 → v1.length = v2.length →
      ∃ s, _cosine_similarity v1 v2 = .ok s
        ∧ normR v1 * normR v2 ≠ 0
        ∧ s.toReal = ((dotProd v1 v2 : ℚ) : ℝ) / (normR v1 * normR v2)) := by
  constructor
  · intro h
    have h0 : normSq v1 = 0 ∨ normSq v2 = 0 := by
      rcases h with h | h
      · exact Or.inl ((normR_eq_zero_iff v1).1 h)
      · exact Or.inr ((normR_eq_zero_iff v2).1 h)
    refine ⟨⟨0, 1, one_pos⟩, ?_, ?_⟩
    · unfold _cosine_similarity
      rw [dif_pos h0]
    · unfold SimScore.toReal
      simp
  · intro h1 h2 hlen
    have h0 : ¬ (normSq v1 = 0 ∨ normSq v2 = 0) := by
      push_neg
      exact ⟨fun hh => h1 ((normR_eq_zero_iff v1).2 hh),
             fun hh => h2 ((normR_eq_zero_iff v2).2 hh)⟩
    have hp1 : 0 < normSq v1 := normSq_pos_of_ne v1 (by tauto)
    have hp2 : 0 < normSq v2 := normSq_pos_of_ne v2 (by tauto)
    have hr1 : (0 : ℝ) < normR v1 := Real.sqrt_pos.2 (by exact_mod_cast hp1)
    have hr2 : (0 : ℝ) < normR v2 := Real.sqrt_pos.2 (by exact_mod_cast hp2)
    refine ⟨⟨dotProd v1 v2, normSq v1 * normSq v2, mul_pos hp1 hp2⟩, ?_, ?_, ?_⟩
    · unfold _cosine_similarity
      rw [dif_neg h0, if_pos hlen]
    · exact (mul_pos hr1 hr2).ne'
    · unfold SimScore.toReal normR
      dsimp only
      rw [show ((normSq v1 * normSq v2 : ℚ) : ℝ) =
          ((normSq v1 : ℚ) : ℝ) * ((normSq v2 : ℚ) : ℝ) from by push_cast; ring]
      rw [Real.sqrt_mul (by exact_mod_cast hp1.le)]

/-- C5 witness: the pair `[0, 0]`, `[3, 4]` has a zero-magnitude first
vector and the similarity is exactly zero. -/
theorem C5_witness :
    (normR [(0 : ℚ), 0] = 0 ∨ normR [(3 : ℚ), 4] = 0)
    ∧ (∃ s, _cosine_similarity [(0 : ℚ), 0] [(3 : ℚ), 4] = .ok s ∧ s.toReal = 0) := by
  have hz : normR [(0 : ℚ), 0] = 0 := by
    rw [normR_eq_zero_iff]
    simp [normSq]
  exact ⟨Or.inl hz, (C5_cosine_zero_guard_and_value _ _).1 (Or.inl hz)⟩

/-- C9: over an empty cache, with a non-empty message and `top_k` within
the limit, `encyclopedia_search` returns a success envelope carrying the
explicit no-data message, whose success flag is set; it is never the
failure envelope. -/
theorem C9_empty_db_success (embed : String → Except String (List ℚ))
    (message : String) (k : Int) (hm : message ≠ "") (hk : ¬ (25 < k)) :
    encyclopedia_search embed [] message k =
      .ok (.message "Vector database is empty. Initialize it first.")
    ∧ (encyclopedia_search embed [] message k).success = true
    ∧ ∀ e, encyclopedia_search embed [] message k ≠ .err e := by
  have h1 : encyclopedia_search embed [] message k =
      .ok (.message "Vector database is empty. Initialize it first.") := by
    unfold encyclopedia_search
    rw [if_neg hm, if_neg hk, if_pos rfl]
  refine ⟨h1, ?_, ?_⟩
  · rw [h1]
    rfl
  · intro e he
    rw [h1] at he
    simp at he

/-- C9 witness: the empty cache with message "query" and `top_k = 5`. -/
theorem C9_witness :
    ("query" ≠ "") ∧ (¬ ((25 : Int) < 5))
    ∧ (encyclopedia_search embedW [] "query" 5 =
        .ok (.message "Vector database is empty. Initialize it first.")
      ∧ (encyclopedia_search embedW [] "query" 5).success = true
      ∧ ∀ e, encyclopedia_search embedW [] "query" 5 ≠ .err e) :=
  ⟨by decide, by decide, C9_empty_db_success embedW "query" 5 (by decide) (by decide)⟩

/-- C7 counterexample: at the empty message with `top_k = 30` the search
fails with the input-validation message, not the TopKTooLarge one — the
claim's "for every message" is too strong. -/
theorem C7_counterexample :
    encyclopedia_search embedW [] "" 30 =
      .err "Input message must be a non-empty string."
    ∧ encyclopedia_search embedW [] "" 30 ≠
      .err "No more than 25 results may be returned for a single query." := by
  constructor
  · unfold encyclopedia_search
    rw [if_pos rfl]
  · intro h
    unfold encyclopedia_search at h
    rw [if_pos rfl] at h
    injection h with h
    exact absurd h (by decide)

/-- C7 (amended): for every non-empty message and every `top_k` greater
than the fixed maximum of 25, `encyclopedia_search` returns the failure
envelope with the TopKTooLarge message, independent of the provider and
of the cache contents (so no embedding call is made). -/
theorem C7_topk_guard (embed : String → Except String (List ℚ))
    (db : List Entry) (message : String) (k : Int)
    (hm : message ≠ "") (hk : 25 < k) :
    encyclopedia_search embed db message k =
      .err "No more than 25 results may be returned for a single query."
    ∧ ∀ (embed2 : String → Except String (List ℚ)) (db2 : List Entry),
        encyclopedia_search embed2 db2 message k =
          .err "No more than 25 results may be returned for a single query." := by
  have key : ∀ (e : String → Except String (List ℚ)) (d : List Entry),
      encyclopedia_search e d message k =
        .err "No more than 25 results may be returned for a single query." := by
    intro e d
    unfold encyclopedia_search
    rw [if_neg hm, if_pos hk]
  exact ⟨key embed db, key⟩

/-- C7 witness: message "x" with `top_k = 30` fails with TopKTooLarge. -/
theorem C7_witness :
    ("x" ≠ "") ∧ ((25 : Int) < 30)
    ∧ (encyclopedia_search embedW [] "x" 30 =
        .err "No more than 25 results may be returned for a single query."
      ∧ ∀ (embed2 : String → Except String (List ℚ)) (db2 : List Entry),
          encyclopedia_search embed2 db2 "x" 30 =
            .err "No more than 25 results may be returned for a single query.") :=
  ⟨by decide, by decide, C7_topk_guard embedW [] "x" 30 (by decide) (by decide)⟩

/-- C8: building from a path whose file cannot be opened returns the
SourceNotFound error with the empty (cleared) store, independent of the
provider and of the completion schedule (so no embedding calls). -/
theorem C8_source_not_found (readFile : String → Option String)
    (embed : String → Except String (List ℚ))
    (sched : List (Nat × String) → List (Nat × String)) (path : String)
    (hread : readFile path = none) :
    initialize_vector_db_from_markdown readFile embed sched path =
      (.error ("File not found: " ++ path), [])
    ∧ ∀ (embed2 : String → Except String (List ℚ))
        (sched2 : List (Nat × String) → List (Nat × String)),
        initialize_vector_db_from_markdown readFile embed2 sched2 path =
          (.error ("File not found: " ++ path), []) := by
  have key : ∀ (e : String → Except String (List ℚ))
      (s : List (Nat × String) → List (Nat × String)),
      initialize_vector_db_from_markdown readFile e s path =
        (.error ("File not found: " ++ path), []) := by
    intro e s
    unfold initialize_vector_db_from_markdown
    rw [hread]
  exact ⟨key embed sched, key⟩

/-- C8 witness: a file system where "missing.md" cannot be opened. -/
theorem C8_witness :
    (readFileAbsent "missing.md" = none)
    ∧ (initialize_vector_db_from_markdown readFileAbsent embedOne id "missing.md" =
        (.error ("File not found: " ++ "missing.md"), [])
      ∧ ∀ (embed2 : String → Except String (List ℚ))
          (sched2 : List (Nat × String) → List (Nat × String)),
          initialize_vector_db_from_markdown readFileAbsent embed2 sched2 "missing.md" =
            (.error ("File not found: " ++ "missing.md"), [])) :=
  ⟨rfl, C8_source_not_found readFileAbsent embedOne id "missing.md" rfl⟩

/-- C3: whenever `_save_embeddings` completes on a store, a subsequent
`_load_embeddings` (from any prior in-memory state) reports success and
restores exactly the saved sequence — same count, and per position the
same text, the same chunk identifier and the same vector (exact equality
in the rational idealization, hence within floating-point tolerance). -/
theorem C3_save_load_roundtrip (fs : FS) (store : List Entry) (fs' : FS)
    (st0 : List Entry) (hsave : _save_embeddings fs store = some fs') :
    _load_embeddings fs' st0 = (true, store) := by
  unfold _save_embeddings at hsave
  cases hdata : serializeStore store with
  | none =>
    rw [hdata] at hsave
    simp at hsave
  | some data =>
    rw [hdata] at hsave
    dsimp only at hsave
    by_cases hpar : parentDir VECTOR_DB_CACHE_FILE ∈ mkdirsVC fs.dirs
    · rw [if_pos hpar] at hsave
      injection hsave with hsave
      rw [← hsave]
      unfold _load_embeddings
      rw [show (FS.mk (mkdirsVC fs.dirs) (setFile fs.files VECTOR_DB_CACHE_FILE data)).files =
          setFile fs.files VECTOR_DB_CACHE_FILE data from rfl]
      rw [getFile_setFile]
      dsimp only
      rw [serializeStore_inv store data hdata]
    · rw [if_neg hpar] at hsave
      simp at hsave

/-- C3 witness: saving the one-record store from a file system whose
snapshot parent directory exists, then loading it back. -/
theorem C3_witness :
    (_save_embeddings fsDatasets storeHello = some fsSaved)
    ∧ _load_embeddings fsSaved [] = (true, storeHello) := by
  have h : _save_embeddings fsDatasets storeHello = some fsSaved := by
    with_unfolding_all rfl
  exact ⟨h, C3_save_load_roundtrip fsDatasets storeHello fsSaved [] h⟩

/-- C4 counterexample: on a file system with no directories, saving a
well-formed one-record store fails (raises) instead of creating the
snapshot path's parent directory — the claim that save succeeds even
when the parent directory is absent is false. -/
theorem C4_counterexample : _save_embeddings fsBare storeA = none := by
  with_unfolding_all rfl

/-- C4 (amended): save serializes the current sequence to the snapshot
file, overwriting any existing file at that path, and creates only the
fixed directory "vector_cache" — not the snapshot path's parent
"objects/datasets"; when that parent directory is absent, save fails
rather than creating it. -/
theorem C4_save_dirs_and_overwrite (fs : FS) (store : List Entry)
    (data : List SerializedEntry)
    (hdata : serializeStore store = some data)
    (hparent : "objects/datasets" ∈ fs.dirs) :
    parentDir VECTOR_DB_CACHE_FILE = "objects/datasets"
    ∧ (∃ fs', _save_embeddings fs store = some fs'
        ∧ getFile fs'.files VECTOR_DB_CACHE_FILE = some data
        ∧ "vector_cache" ∈ fs'.dirs
        ∧ fs'.dirs = mkdirsVC fs.dirs)
    ∧ (∀ fs2 : FS, "objects/datasets" ∉ fs2.dirs →
        _save_embeddings fs2 store = none) := by
  have hpd : parentDir VECTOR_DB_CACHE_FILE = "objects/datasets" := by decide
  refine ⟨hpd, ?_, ?_⟩
  · refine ⟨FS.mk (mkdirsVC fs.dirs) (setFile fs.files VECTOR_DB_CACHE_FILE data),
      ?_, ?_, ?_, rfl⟩
    · unfold _save_embeddings
      rw [hdata]
      dsimp only
      rw [if_pos ?_]
      rw [hpd]
      unfold mkdirsVC
      split_ifs with hvc
      · exact hparent
      · exact List.mem_cons_of_mem _ hparent
    · exact getFile_setFile _ _ _
    · show "vector_cache" ∈ mkdirsVC fs.dirs
      unfold mkdirsVC
      split_ifs with hvc
      · exact hvc
      · exact List.mem_cons_self _ _
  · intro fs2 hnot
    have hcond : parentDir VECTOR_DB_CACHE_FILE ∉ mkdirsVC fs2.dirs := by
      rw [hpd]
      unfold mkdirsVC
      split_ifs with hvc
      · exact hnot
      · intro hmem
        rcases List.mem_cons.1 hmem with hh | hh
        · exact absurd hh (by decide)
        · exact hnot hh
    unfold _save_embeddings
    rw [hdata]
    dsimp only
    rw [if_neg hcond]

/-- C4 witness: saving the one-record store from a file system where the
snapshot's parent directory exists. -/
theorem C4_witness :
    (serializeStore storeHello = some dataHello)
    ∧ ("objects/datasets" ∈ fsDatasets.dirs)
    ∧ (parentDir VECTOR_DB_CACHE_FILE = "objects/datasets"
      ∧ (∃ fs', _save_embeddings fsDatasets storeHello = some fs'
          ∧ getFile fs'.files VECTOR_DB_CACHE_FILE = some dataHello
          ∧ "vector_cache" ∈ fs'.dirs
          ∧ fs'.dirs = mkdirsVC fsDatasets.dirs)
      ∧ (∀ fs2 : FS, "objects/datasets" ∉ fs2.dirs →
          _save_embeddings fs2 storeHello = none)) := by
  have h1 : serializeStore storeHello = some dataHello := by with_unfolding_all rfl
  have h2 : "objects/datasets" ∈ fsDatasets.dirs := by decide
  exact ⟨h1, h2, C4_save_dirs_and_overwrite fsDatasets storeHello dataHello h1 h2⟩

/-- C6: building the cache splits the source text on line boundaries,
discards lines empty after trimming, and pairs each surviving chunk with
an identifier equal to its zero-based position in the filtered sequence:
whatever the completion order, the stored `(chunk_id, text)` pairs are a
permutation of the enumerated filtered chunks. -/
theorem C6_chunk_ids (readFile : String → Option String)
    (embed : String → Except String (List ℚ))
    (sched : List (Nat × String) → List (Nat × String))
    (path content : String)
    (hread : readFile path = some content)
    (hsched : ∀ l, (sched l).Perm l)
    (hok : ∀ c, ∃ v, embed c = .ok v) :
    ((initialize_vector_db_from_markdown readFile embed sched path).2.map
        (fun e => (e.chunk_id, e.text))).Perm
      ((chunkDocument content).enum.map (fun p => ((p.1 : Int), p.2))) := by
  unfold initialize_vector_db_from_markdown
  rw [hread]
  dsimp only
  by_cases hc : chunkDocument content = []
  · rw [if_pos hc, hc]
    simp
  · rw [if_neg hc]
    dsimp only
    have hmap : ∀ l : List (Nat × String),
        ((l.filterMap (fun p =>
          match embed p.2 with
          | .ok v => some (Entry.mk p.2 (p.1 : Int) (some v))
          | .error _ => none)).map (fun e => (e.chunk_id, e.text))) =
        l.map (fun p => ((p.1 : Int), p.2)) := by
      intro l
      induction l with
      | nil => rfl
      | cons p t ih =>
        obtain ⟨v, hv⟩ := hok p.2
        rw [List.filterMap_cons, hv]
        dsimp only
        rw [List.map_cons, List.map_cons, ih]
    rw [hmap]
    exact (hsched _).map _

/-- C6 witness: the Mars document has three non-empty lines and two
blank lines; its cache holds exactly the identifiers 0, 1, 2 paired with
the three chunks. -/
theorem C6_witness :
    (readFileMars "doc.md" = some "Mars\n\nVenus\n\nPluto")
    ∧ (chunkDocument "Mars\n\nVenus\n\nPluto" = ["Mars", "Venus", "Pluto"])
    ∧ ((initialize_vector_db_from_markdown readFileMars embedOne id "doc.md").2.map
          (fun e => (e.chunk_id, e.text))).Perm
        ((chunkDocument "Mars\n\nVenus\n\nPluto").enum.map
          (fun p => ((p.1 : Int), p.2))) := by
  refine ⟨rfl, by decide, ?_⟩
  exact C6_chunk_ids readFileMars embedOne id "doc.md" "Mars\n\nVenus\n\nPluto" rfl
    (fun l => List.Perm.refl l) (fun c => ⟨[1], rfl⟩)

/-- C1 counterexample: over a cache holding one well-formed 1024-vector
record and one record whose stored vector has length 1, a search with a
1024-dimensional query embedding returns the failure envelope — the
mismatched record is not skipped, contradicting the claim that such a
record never turns the whole search into a failure. -/
theorem C1_counterexample :
    encyclopedia_search embedBig dbBad "q" 5 =
      .err "An error occurred during vector search: shapes not aligned"
    ∧ (encyclopedia_search embedBig dbBad "q" 5).success = false := by
  have hqn : normSq (List.replicate EMBEDDING_DIMENSION (1 : ℚ)) ≠ 0 := by
    rw [normSq_replicate_one]
    rw [show EMBEDDING_DIMENSION = 1024 from rfl]
    norm_num
  have hv : normSq [(1 : ℚ)] ≠ 0 := by
    rw [show normSq [(1 : ℚ)] = 1 from by with_unfolding_all rfl]
    norm_num
  have hlen : [(1 : ℚ)].length ≠ (List.replicate EMBEDDING_DIMENSION (1 : ℚ)).length := by
    rw [List.length_replicate]
    decide
  have hserr : scoreEntries (List.replicate EMBEDDING_DIMENSION (1 : ℚ)) dbBad =
      .error "shapes not aligned" :=
    scoreEntries_error_of_mismatch _ _ [(1 : ℚ)] hqn hv hlen
      ⟨Entry.mk "bad" 1 (some [1]), by simp [dbBad], rfl⟩
  have h : encyclopedia_search embedBig dbBad "q" 5 =
      .err "An error occurred during vector search: shapes not aligned" := by
    rw [encyclopedia_search_unfold_error embedBig dbBad "q" 5
      (List.replicate EMBEDDING_DIMENSION 1) "shapes not aligned"
      (by decide) (by decide) (by simp [dbBad]) rfl hserr]
    decide
  refine ⟨h, ?_⟩
  rw [h]
  rfl

/-- C1 (amended): during `encyclopedia_search`, cached records whose
stored embedding is missing or not a vector are skipped (the scoring
loop behaves as if they were filtered out) while the remaining records
are scored; but a cached record whose stored embedding is a vector of
length different from the query's 1024 — with neither vector of zero
magnitude — makes the whole search return the failure envelope instead
of being skipped. -/
theorem C1_skip_nonvector_fail_mismatch :
    (∀ (q : List ℚ) (db : List Entry),
      scoreEntries q db = scoreEntries q (db.filter fun e => e.embedding.isSome))
    ∧ (∀ (embed : String → Except String (List ℚ)) (db : List Entry)
        (message : String) (k : Int) (q v : List ℚ),
        message ≠ "" → ¬ (25 < k) → db ≠ [] →
        embed message = .ok q → q.length = EMBEDDING_DIMENSION →
        (∃ e ∈ db, e.embedding = some v) → v.length ≠ EMBEDDING_DIMENSION →
        normSq v ≠ 0 → normSq q ≠ 0 →
        encyclopedia_search embed db message k =
          .err "An error occurred during vector search: shapes not aligned") := by
  constructor
  · exact fun q db => scoreEntries_skip q db
  · intro embed db message k q v hm hk hdb hq hqd hmem hvd hv hqn
    have hlen : v.length ≠ q.length := fun hh => hvd (hh.trans hqd)
    have hserr : scoreEntries q db = .error "shapes not aligned" :=
      scoreEntries_error_of_mismatch q db v hqn hv hlen hmem
    rw [encyclopedia_search_unfold_error embed db message k q
      "shapes not aligned" hm hk hdb hq hserr]
    decide

/-- C1 witness: the two-record cache `dbBad` with the 1024-dimensional
query of ones; its second record has a length-1 vector and the search
fails. -/
theorem C1_witness :
    ("q" ≠ "") ∧ (¬ ((25 : Int) < 5)) ∧ (dbBad ≠ [])
    ∧ (embedBig "q" = .ok (List.replicate EMBEDDING_DIMENSION 1))
    ∧ ((List.replicate EMBEDDING_DIMENSION (1 : ℚ)).length = EMBEDDING_DIMENSION)
    ∧ (∃ e ∈ dbBad, e.embedding = some [(1 : ℚ)])
    ∧ ([(1 : ℚ)].length ≠ EMBEDDING_DIMENSION)
    ∧ (normSq [(1 : ℚ)] ≠ 0)
    ∧ (normSq (List.replicate EMBEDDING_DIMENSION (1 : ℚ)) ≠ 0)
    ∧ encyclopedia_search embedBig dbBad "q" 5 =
        .err "An error occurred during vector search: shapes not aligned" := by
  have hm : "q" ≠ "" := by decide
  have hk : ¬ ((25 : Int) < 5) := by decide
  have hdb : dbBad ≠ [] := by
    intro hh
    simp [dbBad] at hh
  have hq : embedBig "q" = .ok (List.replicate EMBEDDING_DIMENSION 1) := rfl
  have hqd : (List.replicate EMBEDDING_DIMENSION (1 : ℚ)).length = EMBEDDING_DIMENSION :=
    List.length_replicate _ _
  have hmem : ∃ e ∈ dbBad, e.embedding = some [(1 : ℚ)] :=
    ⟨Entry.mk "bad" 1 (some [1]), by simp [dbBad], rfl⟩
  have hvd : [(1 : ℚ)].length ≠ EMBEDDING_DIMENSION := by decide
  have hv : normSq [(1 : ℚ)] ≠ 0 := by
    rw [show normSq [(1 : ℚ)] = 1 from by with_unfolding_all rfl]
    norm_num
  have hqn : normSq (List.replicate EMBEDDING_DIMENSION (1 : ℚ)) ≠ 0 := by
    rw [normSq_replicate_one]
    rw [show EMBEDDING_DIMENSION = 1024 from rfl]
    norm_num
  exact ⟨hm, hk, hdb, hq, hqd, hmem, hvd, hv, hqn,
    C1_skip_nonvector_fail_mismatch.2 embedBig dbBad "q" 5
      (List.replicate EMBEDDING_DIMENSION 1) [(1 : ℚ)]
      hm hk hdb hq hqd hmem hvd hv hqn⟩

/-- C2: whenever `encyclopedia_search` returns a ranked result list (the
query embedding succeeded and the records were scored), that list is
sorted non-increasing by score; any two results with equal scores occur
in their original cache order (they form a sublist of the scored list,
which is in cache order); and with a non-negative `top_k` the list has
length at most `top_k`. -/
theorem C2_sorted_stable_truncated (embed : String → Except String (List ℚ))
    (db : List Entry) (message : String) (k : Int) (q : List ℚ)
    (scored results : List SearchResult)
    (hq : embed message = .ok q) (hs : scoreEntries q db = .ok scored)
    (hk : 0 ≤ k)
    (h : encyclopedia_search embed db message k = .ok (.results results)) :
    results.Pairwise (fun a b => b.score.toReal ≤ a.score.toReal)
    ∧ results.length ≤ k.toNat
    ∧ ∀ a b, [a, b].Sublist results → SimScore.eqv a.score b.score = true →
        [a, b].Sublist scored := by
  have hm : message ≠ "" := by
    intro hme
    unfold encyclopedia_search at h
    rw [if_pos hme] at h
    simp at h
  have hk25 : ¬ (25 < k) := by
    intro hgt
    unfold encyclopedia_search at h
    rw [if_neg hm, if_pos hgt] at h
    simp at h
  have hdb : db ≠ [] := by
    intro hdbe
    unfold encyclopedia_search at h
    rw [if_neg hm, if_neg hk25, if_pos hdbe] at h
    simp at h
  rw [encyclopedia_search_unfold embed db message k q scored hm hk25 hdb hq hs] at h
  by_cases htop : pySlice k (List.insertionSort scoreGE scored) = []
  · rw [if_pos htop] at h
    simp at h
  · rw [if_neg htop] at h
    have hres : results = pySlice k (List.insertionSort scoreGE scored) := by
      injection h with h1
      injection h1 with h2
      exact h2.symm
    have hsub : (pySlice k (List.insertionSort scoreGE scored)).Sublist
        (List.insertionSort scoreGE scored) := by
      unfold pySlice
      split_ifs
      all_goals exact List.take_sublist _ _
    have hsorted : (List.insertionSort scoreGE scored).Pairwise scoreGE := by
      haveI : IsTotal SearchResult scoreGE := ⟨fun a b => by
        unfold scoreGE
        rcases SimScore.le_total_bool b.score a.score with hh | hh
        · exact Or.inl hh
        · exact Or.inr hh⟩
      haveI : IsTrans SearchResult scoreGE := ⟨fun a b c hab hbc => by
        unfold scoreGE at hab hbc ⊢
        exact SimScore.le_trans_bool hbc hab⟩
      exact List.sorted_insertionSort scoreGE scored
    refine ⟨?_, ?_, ?_⟩
    · rw [hres]
      exact (hsorted.sublist hsub).imp (fun hge => (SimScore.le_iff _ _).1 hge)
    · rw [hres]
      unfold pySlice
      rw [if_pos hk, List.length_take]
      exact min_le_left _ _
    · intro a b hab he
      rw [hres] at hab
      exact pair_sublist_insertionSort a b scored (hab.trans hsub) he

/-- C2 witness: searching the five-record cache `db5` with `top_k = 3`
returns the three results `res3`, sorted non-increasing, with the two
maximal-score records (`t0` before `t3`) kept in cache order. -/
theorem C2_witness :
    (embedW "m" = .ok [1, 0])
    ∧ (scoreEntries [1, 0] db5 = .ok scored5)
    ∧ ((0 : Int) ≤ 3)
    ∧ (encyclopedia_search embedW db5 "m" 3 = .ok (.results res3))
    ∧ (res3.Pairwise (fun a b => b.score.toReal ≤ a.score.toReal)
      ∧ res3.length ≤ (3 : Int).toNat
      ∧ ∀ a b, [a, b].Sublist res3 → SimScore.eqv a.score b.score = true →
          [a, b].Sublist scored5) := by
  have h1 : embedW "m" = .ok [1, 0] := rfl
  have h2 : scoreEntries [1, 0] db5 = .ok scored5 := by with_unfolding_all rfl
  have h3 : (0 : Int) ≤ 3 := by decide
  have h4 : encyclopedia_search embedW db5 "m" 3 = .ok (.results res3) := by
    with_unfolding_all rfl
  exact ⟨h1, h2, h3, h4,
    C2_sorted_stable_truncated embedW db5 "m" 3 [1, 0] scored5 res3 h1 h2 h3 h4⟩

/-- C10: `encyclopedia_search` has no lower-bound validation on
`top_k`: over a non-empty cache with a successful query embedding,
`top_k = 0` yields the successful empty-result signal (not an
input-validation error), and `top_k = -n` with `0 < n` less than the
number of scored records yields a success whose list is the sorted
scored records with the `n` lowest-ranked ones removed. -/
theorem C10_no_lower_bound (embed : String → Except String (List ℚ))
    (db : List Entry) (message : String) (q : List ℚ)
    (scored : List SearchResult) (n : Nat)
    (hm : message ≠ "") (hdb : db ≠ [])
    (hq : embed message = .ok q) (hs : scoreEntries q db = .ok scored)
    (hn : 0 < n) (hn2 : n < scored.length) :
    encyclopedia_search embed db message 0 =
      .ok_empty ("No relevant information found for: \x27" ++ message ++ "\x27")
    ∧ encyclopedia_search embed db message (-(n : Int)) =
        .ok (.results ((List.insertionSort scoreGE scored).take (scored.length - n))) := by
  have hlen : (List.insertionSort scoreGE scored).length = scored.length :=
    (List.perm_insertionSort scoreGE scored).length_eq
  constructor
  · rw [encyclopedia_search_unfold embed db message 0 q scored hm (by decide) hdb hq hs]
    rw [if_pos ?_]
    unfold pySlice
    rw [if_pos (le_refl 0)]
    rfl
  · have hk : ¬ ((25 : Int) < -(n : Int)) := by omega
    rw [encyclopedia_search_unfold embed db message (-(n : Int)) q scored hm hk hdb hq hs]
    have hslice : pySlice (-(n : Int)) (List.insertionSort scoreGE scored) =
        (List.insertionSort scoreGE scored).take (scored.length - n) := by
      unfold pySlice
      rw [if_neg (by omega)]
      rw [hlen]
      congr 1
      omega
    rw [hslice]
    rw [if_neg ?_]
    intro hh
    have hl := congrArg List.length hh
    rw [List.length_take, hlen] at hl
    simp only [List.length_nil, Nat.min_eq_zero_iff] at hl
    omega

/-- C10 witness: over the five-record cache, `top_k = 0` returns the
empty-result signal and `top_k = -2` returns the three top-ranked of the
five scored records. -/
theorem C10_witness :
    ("m" ≠ "") ∧ (db5 ≠ [])
    ∧ (embedW "m" = .ok [1, 0])
    ∧ (scoreEntries [1, 0] db5 = .ok scored5)
    ∧ (0 < 2) ∧ (2 < scored5.length)
    ∧ (encyclopedia_search embedW db5 "m" 0 =
        .ok_empty ("No relevant information found for: \x27" ++ "m" ++ "\x27")
      ∧ encyclopedia_search embedW db5 "m" (-(2 : Int)) =
          .ok (.results ((List.insertionSort scoreGE scored5).take (scored5.length - 2)))) := by
  have h1 : "m" ≠ "" := by decide
  have h2 : db5 ≠ [] := by simp [db5]
  have h3 : embedW "m" = .ok [1, 0] := rfl
  have h4 : scoreEntries [1, 0] db5 = .ok scored5 := by with_unfolding_all rfl
  have h5 : 0 < 2 := by decide
  have h6 : 2 < scored5.length := by decide
  exact ⟨h1, h2, h3, h4, h5, h6,
    C10_no_lower_bound embedW db5 "m" [1, 0] scored5 2 h1 h2 h3 h4 h5 h6⟩
